import Mathlib

/-
Verification development for the mapita repository: a FastAPI backend
(backend.py) serving vector layers as GeoJSON and single-band rasters as
base64-encoded byte payloads, Streamlit dashboards (frontend.py, app.py)
that decode and plot them, and an Earth Engine ROI time-series tool
(main.py).  Machine integers are modelled as Nat bit patterns; the byte
level codec (tobytes, base64, frombuffer, reshape) is modelled faithfully.
-/

namespace Mapita

/-! ## Little-endian fixed-width byte serialization

Models numpy array element storage: ndarray.tobytes writes each element
as itemsize consecutive bytes in the array byte order, and np.frombuffer
reads them back with the same dtype.  An element is modelled by its bit
pattern, a Nat below 256 ^ itemsize; signedness and float interpretation
are bijections on bit patterns, so byte-exact round trips are captured. -/

def natToBytes : Nat → Nat → List Nat
  | 0, _ => []
  | k + 1, v => v % 256 :: natToBytes k (v / 256)

def bytesToNat : List Nat → Nat
  | [] => 0
  | b :: t => b + 256 * bytesToNat t

theorem natToBytes_length (k v : Nat) : (natToBytes k v).length = k := by
  induction k generalizing v with
  | zero => rfl
  | succ n ih => simp [natToBytes, ih]

theorem natToBytes_lt (k v : Nat) : ∀ b ∈ natToBytes k v, b < 256 := by
  induction k generalizing v with
  | zero => intro b hb; simp [natToBytes] at hb
  | succ n ih =>
    intro b hb
    simp only [natToBytes, List.mem_cons] at hb
    rcases hb with h | h
    · omega
    · exact ih _ b h

theorem bytesToNat_natToBytes (k v : Nat) (h : v < 256 ^ k) :
    bytesToNat (natToBytes k v) = v := by
  induction k generalizing v with
  | zero => simp [pow_zero] at h; simp [natToBytes, bytesToNat, h]
  | succ n ih =>
    have hdiv : v / 256 < 256 ^ n := by
      rw [Nat.div_lt_iff_lt_mul (by norm_num : 0 < 256)]
      calc v < 256 ^ (n + 1) := h
        _ = 256 ^ n * 256 := by ring
    simp only [natToBytes, bytesToNat, ih _ hdiv]
    omega

/-! ## Base64 codec

Models the standard base64 alphabet and padding rules used by the Python
standard library calls base64.b64encode in backend.py and base64.b64decode
in frontend.py, on well-formed inputs (bytes below 256 on the encode side,
encoder output on the decode side). -/

def b64alphabet : List Char :=
  ['A', 'B', 'C', 'D', 'E', 'F', 'G', 'H', 'I', 'J', 'K', 'L', 'M',
   'N', 'O', 'P', 'Q', 'R', 'S', 'T', 'U', 'V', 'W', 'X', 'Y', 'Z',
   'a', 'b', 'c', 'd', 'e', 'f', 'g', 'h', 'i', 'j', 'k', 'l', 'm',
   'n', 'o', 'p', 'q', 'r', 's', 't', 'u', 'v', 'w', 'x', 'y', 'z',
   '0', '1', '2', '3', '4', '5', '6', '7', '8', '9', '+', '/']

def b64char (n : Nat) : Char := b64alphabet.getD n 'A'

def b64val (c : Char) : Nat := b64alphabet.findIdx (fun d => d == c)

def b64encode : List Nat → List Char
  | [] => []
  | [a] => [b64char (a / 4), b64char (a % 4 * 16), '=', '=']
  | [a, b] =>
      [b64char (a / 4), b64char (a % 4 * 16 + b / 16), b64char (b % 16 * 4), '=']
  | a :: b :: c :: rest =>
      b64char (a / 4) :: b64char (a % 4 * 16 + b / 16) ::
        b64char (b % 16 * 4 + c / 64) :: b64char (c % 64) :: b64encode rest

def b64decode : List Char → List Nat
  | c1 :: c2 :: c3 :: c4 :: rest =>
      let v1 := b64val c1
      let v2 := b64val c2
      if c3 = '=' then [v1 * 4 + v2 / 16]
      else
        let v3 := b64val c3
        if c4 = '=' then [v1 * 4 + v2 / 16, v2 % 16 * 16 + v3 / 4]
        else
          (v1 * 4 + v2 / 16) :: (v2 % 16 * 16 + v3 / 4) ::
            (v3 % 4 * 64 + b64val c4) :: b64decode rest
  | _ => []

theorem b64val_b64char : ∀ n < 64, b64val (b64char n) = n := by decide

theorem b64char_ne_pad : ∀ n < 64, b64char n ≠ '=' := by decide

theorem byte1_of_1 (a : Nat) : a / 4 * 4 + a % 4 * 16 / 16 = a := by
  rw [Nat.mul_div_cancel _ (show 0 < 16 by norm_num)]
  omega

theorem byte1_of_2 (a b : Nat) (hb : b < 256) :
    a / 4 * 4 + (a % 4 * 16 + b / 16) / 16 = a := by
  have h1 : a % 4 * 16 + b / 16 = 16 * (a % 4) + b / 16 := by ring
  rw [h1, Nat.mul_add_div (by norm_num),
    Nat.div_eq_of_lt (show b / 16 < 16 by omega)]
  omega

theorem byte2_of_2 (a b : Nat) (hb : b < 256) :
    (a % 4 * 16 + b / 16) % 16 * 16 + b % 16 * 4 / 4 = b := by
  have h1 : a % 4 * 16 + b / 16 = 16 * (a % 4) + b / 16 := by ring
  rw [h1, Nat.mul_add_mod, Nat.mod_eq_of_lt (show b / 16 < 16 by omega),
    Nat.mul_div_cancel _ (show 0 < 4 by norm_num)]
  omega

theorem byte2_of_3 (a b c : Nat) (hb : b < 256) (hc : c < 256) :
    (a % 4 * 16 + b / 16) % 16 * 16 + (b % 16 * 4 + c / 64) / 4 = b := by
  have h1 : a % 4 * 16 + b / 16 = 16 * (a % 4) + b / 16 := by ring
  have h2 : b % 16 * 4 + c / 64 = 4 * (b % 16) + c / 64 := by ring
  rw [h1, h2, Nat.mul_add_mod, Nat.mod_eq_of_lt (show b / 16 < 16 by omega),
    Nat.mul_add_div (by norm_num),
    Nat.div_eq_of_lt (show c / 64 < 4 by omega)]
  omega

theorem byte3_of_3 (b c : Nat) (hc : c < 256) :
    (b % 16 * 4 + c / 64) % 4 * 64 + c % 64 = c := by
  have h2 : b % 16 * 4 + c / 64 = 4 * (b % 16) + c / 64 := by ring
  rw [h2, Nat.mul_add_mod, Nat.mod_eq_of_lt (show c / 64 < 4 by omega)]
  omega

theorem b64_roundtrip (bs : List Nat) (h : ∀ b ∈ bs, b < 256) :
    b64decode (b64encode bs) = bs := by
  induction bs using b64encode.induct with
  | case1 => decide
  | case2 a =>
    have ha : a < 256 := h a (by simp)
    have h1 : a / 4 < 64 := by omega
    have h2 : a % 4 * 16 < 64 := by omega
    simp only [b64encode, b64decode]
    rw [if_pos trivial, b64val_b64char _ h1, b64val_b64char _ h2, byte1_of_1]
  | case3 a b =>
    have ha : a < 256 := h a (by simp)
    have hb : b < 256 := h b (by simp)
    have h1 : a / 4 < 64 := by omega
    have h2 : a % 4 * 16 + b / 16 < 64 := by omega
    have h3 : b % 16 * 4 < 64 := by omega
    simp only [b64encode, b64decode]
    rw [if_neg (b64char_ne_pad _ h3), if_pos trivial, b64val_b64char _ h1,
      b64val_b64char _ h2, b64val_b64char _ h3, byte1_of_2 a b hb,
      byte2_of_2 a b hb]
  | case4 a b c rest ih =>
    have ha : a < 256 := h a (by simp)
    have hb : b < 256 := h b (by simp)
    have hc : c < 256 := h c (by simp)
    have h1 : a / 4 < 64 := by omega
    have h2 : a % 4 * 16 + b / 16 < 64 := by omega
    have h3 : b % 16 * 4 + c / 64 < 64 := by omega
    have h4 : c % 64 < 64 := by omega
    have hrest : ∀ x ∈ rest, x < 256 := by
      intro x hx; exact h x (by simp [hx])
    simp only [b64encode, b64decode]
    rw [if_neg (b64char_ne_pad _ h3), if_neg (b64char_ne_pad _ h4),
      b64val_b64char _ h1, b64val_b64char _ h2, b64val_b64char _ h3,
      b64val_b64char _ h4, byte1_of_2 a b hb, byte2_of_3 a b c hb hc,
      byte3_of_3 b c hc, ih hrest]

theorem b64decode_length_encode (bs : List Nat) (h : ∀ b ∈ bs, b < 256) :
    (b64decode (b64encode bs)).length = bs.length := by
  rw [b64_roundtrip bs h]

/-! ## Numpy dtypes and 2-D arrays

The fixed-width numeric dtypes produced by rasterio profiles and accepted
by np.frombuffer as dtype strings.  An array element is identified with
its bit pattern, a Nat below 256 ^ itemsize. -/

inductive NpDtype where
  | uint8 | int8 | uint16 | int16 | uint32 | int32
  | uint64 | int64 | float32 | float64
deriving DecidableEq

def NpDtype.itemsize : NpDtype → Nat
  | .uint8 => 1
  | .int8 => 1
  | .uint16 => 2
  | .int16 => 2
  | .uint32 => 4
  | .int32 => 4
  | .uint64 => 8
  | .int64 => 8
  | .float32 => 4
  | .float64 => 8

def NpDtype.name : NpDtype → String
  | .uint8 => "uint8"
  | .int8 => "int8"
  | .uint16 => "uint16"
  | .int16 => "int16"
  | .uint32 => "uint32"
  | .int32 => "int32"
  | .uint64 => "uint64"
  | .int64 => "int64"
  | .float32 => "float32"
  | .float64 => "float64"

def parseDtype (s : String) : Option NpDtype :=
  if s = "uint8" then some .uint8
  else if s = "int8" then some .int8
  else if s = "uint16" then some .uint16
  else if s = "int16" then some .int16
  else if s = "uint32" then some .uint32
  else if s = "int32" then some .int32
  else if s = "uint64" then some .uint64
  else if s = "int64" then some .int64
  else if s = "float32" then some .float32
  else if s = "float64" then some .float64
  else none

theorem parseDtype_name (d : NpDtype) : parseDtype d.name = some d := by
  cases d <;> decide

theorem itemsize_pos (d : NpDtype) : 0 < d.itemsize := by
  cases d <;> decide

def itemsizeOfName (s : String) : Nat :=
  match parseDtype s with
  | some d => d.itemsize
  | none => 0

theorem itemsizeOfName_name (d : NpDtype) : itemsizeOfName d.name = d.itemsize := by
  unfold itemsizeOfName
  rw [parseDtype_name]

/-- A single-band raster as read by rasterio src.read(1): a 2-D row-major
array with a dtype.  The data field lists the rows. -/
structure NpArray2D where
  dtype : NpDtype
  rows : Nat
  cols : Nat
  data : List (List Nat)
deriving DecidableEq

def flattenRows {α : Type} : List (List α) → List α
  | [] => []
  | r :: t => r ++ flattenRows t

def bytesOfVals (k : Nat) : List Nat → List Nat
  | [] => []
  | v :: t => natToBytes k v ++ bytesOfVals k t

/-- Models ndarray.tobytes: row-major flatten, then the fixed-width byte
serialization of every element. -/
def tobytes (a : NpArray2D) : List Nat :=
  bytesOfVals a.dtype.itemsize (flattenRows a.data)

/-- Structural worker for frombuffer: the fuel bounds the number of
elements and starts at the byte count, which suffices because every step
consumes at least one byte. -/
def frombufferAux (k : Nat) : Nat → List Nat → List Nat
  | 0, _ => []
  | _ + 1, [] => []
  | fuel + 1, b :: t =>
      bytesToNat ((b :: t).take k) :: frombufferAux k fuel ((b :: t).drop k)

/-- Models np.frombuffer: reinterpret a byte string as a flat array of
fixed-width elements. -/
def frombuffer (k : Nat) (bs : List Nat) : List Nat :=
  frombufferAux k bs.length bs

def chunkRows (cols : Nat) : Nat → List Nat → List (List Nat)
  | 0, _ => []
  | r + 1, flat => flat.take cols :: chunkRows cols r (flat.drop cols)

/-- Models ndarray.reshape to (rows, cols): succeeds only when the flat
length matches, as numpy raises ValueError otherwise. -/
def reshape2 (rows cols : Nat) (flat : List Nat) : Option (List (List Nat)) :=
  if flat.length = rows * cols then some (chunkRows cols rows flat) else none

theorem frombuffer_nil (k : Nat) : frombuffer k [] = [] := rfl

theorem mem_flattenRows {α : Type} {v : α} {data : List (List α)} :
    v ∈ flattenRows data ↔ ∃ row ∈ data, v ∈ row := by
  induction data with
  | nil => simp [flattenRows]
  | cons r t ih => simp [flattenRows, ih]

theorem flattenRows_length {α : Type} (cols : Nat) (data : List (List α))
    (h : ∀ row ∈ data, row.length = cols) :
    (flattenRows data).length = data.length * cols := by
  induction data with
  | nil => simp [flattenRows]
  | cons r t ih =>
    have hr : r.length = cols := h r (by simp)
    have ht := ih (fun x hx => h x (by simp [hx]))
    simp [flattenRows, hr, ht]
    ring

theorem bytesOfVals_length (k : Nat) (vs : List Nat) :
    (bytesOfVals k vs).length = vs.length * k := by
  induction vs with
  | nil => simp [bytesOfVals]
  | cons v t ih =>
    simp [bytesOfVals, natToBytes_length, ih]
    ring

theorem bytesOfVals_lt (k : Nat) (vs : List Nat) :
    ∀ b ∈ bytesOfVals k vs, b < 256 := by
  induction vs with
  | nil => simp [bytesOfVals]
  | cons v t ih =>
    intro b hb
    simp only [bytesOfVals, List.mem_append] at hb
    rcases hb with h | h
    · exact natToBytes_lt k v b h
    · exact ih b h

theorem take_append_length {α : Type} (xs ys : List α) (k : Nat)
    (h : xs.length = k) : (xs ++ ys).take k = xs := by
  subst h
  exact List.take_left xs ys

theorem drop_append_length {α : Type} (xs ys : List α) (k : Nat)
    (h : xs.length = k) : (xs ++ ys).drop k = ys := by
  subst h
  exact List.drop_left xs ys

theorem frombufferAux_bytesOfVals (k : Nat) (hk : 0 < k) (vs : List Nat)
    (h : ∀ v ∈ vs, v < 256 ^ k) :
    ∀ fuel, (bytesOfVals k vs).length ≤ fuel →
      frombufferAux k fuel (bytesOfVals k vs) = vs := by
  induction vs with
  | nil =>
    intro fuel _
    cases fuel <;> rfl
  | cons v t ih =>
    intro fuel hfuel
    have hv : v < 256 ^ k := h v (by simp)
    have hlen : (natToBytes k v).length = k := natToBytes_length k v
    have htot : (bytesOfVals k (v :: t)).length
        = k + (bytesOfVals k t).length := by
      simp [bytesOfVals, hlen]
    rw [htot] at hfuel
    cases fuel with
    | zero => omega
    | succ f =>
      rw [show bytesOfVals k (v :: t)
          = natToBytes k v ++ bytesOfVals k t from rfl]
      cases hnb : natToBytes k v with
      | nil =>
        rw [hnb] at hlen
        simp at hlen
        omega
      | cons b bt =>
        have hlen2 : (b :: bt).length = k := by rw [← hnb]; exact hlen
        rw [List.cons_append]
        simp only [frombufferAux]
        rw [← List.cons_append, take_append_length _ _ k hlen2,
          drop_append_length _ _ k hlen2, ← hnb,
          bytesToNat_natToBytes k v hv,
          ih (fun x hx => h x (by simp [hx])) f (by omega)]

theorem frombuffer_bytesOfVals (k : Nat) (hk : 0 < k) (vs : List Nat)
    (h : ∀ v ∈ vs, v < 256 ^ k) :
    frombuffer k (bytesOfVals k vs) = vs :=
  frombufferAux_bytesOfVals k hk vs h _ le_rfl

theorem chunkRows_flattenRows (cols : Nat) (data : List (List Nat))
    (h : ∀ row ∈ data, row.length = cols) :
    chunkRows cols data.length (flattenRows data) = data := by
  induction data with
  | nil => rfl
  | cons r t ih =>
    have hr : r.length = cols := h r (by simp)
    simp only [List.length_cons, flattenRows, chunkRows]
    rw [take_append_length _ _ cols hr, drop_append_length _ _ cols hr,
      ih (fun x hx => h x (by simp [hx]))]

/-! ## Transfer payload: backend encoder and frontend decoder

Models load_raster_as_base64 in backend.py lines 73 to 108 and the raster
decoding part of get_raster in frontend.py lines 38 to 73.  Opening the
file with rasterio is external; the in-memory band (NpArray2D) and the
profile are passed in.  rasterio guarantees that the dtype in the profile
names the dtype of the band read from the dataset; theorems take this as
the hypothesis that profile.dtype equals some a.dtype.name. -/

/-- The rasterio profile fields that backend.py copies into the metadata
dict.  Fields other than dtype are opaque to every claim. -/
structure RasterProfile where
  crs : Option String
  transform : Option (List Rat)
  dtype : Option String
  nodata : Option Rat
  driver : Option String
  count : Option Nat
  width : Option Nat
  height : Option Nat
deriving DecidableEq

/-- The JSON-friendly metadata dict built in backend.py lines 93 to 102.
A dtype value of none models a payload whose metadata lacks a usable
dtype entry. -/
structure RasterMeta where
  crs : String
  transform : Option (List Rat)
  dtype : Option String
  nodata : Option Rat
  driver : Option String
  count : Option Nat
  width : Option Nat
  height : Option Nat
deriving DecidableEq

/-- Models Python str applied to an optional value: str(None) is the text
None. -/
def optStr : Option String → String
  | some s => s
  | none => "None"

/-- The dict returned by load_raster_as_base64: base64 text, (rows, cols)
shape, and the metadata record. -/
structure TransferPayload where
  base64_data : List Char
  shape : Nat × Nat
  metadata : RasterMeta
deriving DecidableEq

/-- Models backend.py load_raster_as_base64 lines 85 to 108: tobytes on
band 1, base64 encode, the (rows, cols) shape, and the metadata dict
copied from the profile. -/
def load_raster_as_base64 (a : NpArray2D) (profile : RasterProfile) :
    TransferPayload :=
  ⟨b64encode (tobytes a), (a.rows, a.cols),
    ⟨optStr profile.crs, profile.transform, profile.dtype, profile.nodata,
      profile.driver, profile.count, profile.width, profile.height⟩⟩

/-- Models the dtype lookup in frontend.py line 63: metadata.get with the
silent default int16 when the dtype entry is absent. -/
def get_raster_dtype (m : RasterMeta) : String :=
  m.dtype.getD ("int16")

/-- Models the decoding part of frontend.py get_raster lines 55 to 67:
base64 decode, np.frombuffer with the dtype string resolved by
get_raster_dtype, reshape to the declared shape.  Returns none where
numpy raises (unknown dtype string, byte length not a multiple of the
itemsize, or a shape mismatch). -/
def get_raster_decode (p : TransferPayload) : Option (List (List Nat)) :=
  (parseDtype (get_raster_dtype p.metadata)).bind (fun dt =>
    if (b64decode p.base64_data).length % dt.itemsize = 0 then
      reshape2 p.shape.1 p.shape.2 (frombuffer dt.itemsize (b64decode p.base64_data))
    else none)

/-! ## Vector access and CRS normalization

Models load_shapefile_as_geojson in backend.py lines 40 to 70.  Reading
the shapefile and the GeoJSON serialization are external; the layer is
modelled by its CRS tag and an opaque feature count, and to_crs is the
external geopandas reprojection, returning none where it raises.  When
geopandas reprojection succeeds its result carries the requested CRS;
theorems state that contract as a hypothesis where needed. -/

structure GeoDataFrame where
  crs : Option String
  features : Nat
deriving DecidableEq

/-- Models the CRS handling in backend.py lines 53 to 60: a missing CRS is
overwritten with EPSG:4326; otherwise to_crs to EPSG:4326 is attempted and
a raising reprojection is caught, keeping the layer unchanged. -/
def load_shapefile_as_geojson (to_crs : GeoDataFrame → Option GeoDataFrame)
    (gdf : GeoDataFrame) : GeoDataFrame :=
  match gdf.crs with
  | none => ⟨some ("EPSG:4326"), gdf.features⟩
  | some _ =>
      match to_crs gdf with
      | some g => g
      | none => gdf

/-! ## Data Service endpoints (backend.py lines 113 to 221)

Each endpoint checks that its file path exists and returns either the
loaded document or the error dict.  The filesystem is a predicate fs on
paths; file readers are passed in as functions. -/

inductive JsonResp (α : Type) where
  | errorObj (msg : String)
  | payload (a : α)
deriving DecidableEq

structure HttpResponse (α : Type) where
  status : Nat
  body : JsonResp α
deriving DecidableEq

/-- Models FastAPI returning a plain dict from a route handler: the body
is serialized as JSON with the default status code 200. -/
def serve {α : Type} (r : JsonResp α) : HttpResponse α := ⟨200, r⟩

def districts_path : String := "Admin_layers/Assaba_Districts_layer.shp"

def region_path : String := "Admin_layers/Assaba_Region_layer.shp"

def roads_path : String := "Streamwater_Line_Road_Network/Main_Road.shp"

def water_path : String := "Streamwater_Line_Road_Network/Streamwater.shp"

def landcover_path (year : Int) : String :=
  "Modis_Land_Cover_Data/" ++ toString year ++ "LCT.tif"

def gpp_path (year : Int) : String :=
  "MODIS_Gross_Primary_Production_GPP/" ++ toString year ++ "_GP.tif"

def precip_path (year : Int) : String :=
  "Climate_Precipitation_Data/" ++ toString year ++ "R.tif"

def pop_path (year : Int) : String :=
  "Gridded_Population_Density_Data/mrt_pd_" ++ toString year ++ "_1km.tif"

/-- Models FastAPI handling of the declared query parameter year with
default 2010: an absent parameter resolves to 2010. -/
def resolveYear (q : Option Int) : Int := q.getD 2010

def get_districts (fs : String → Bool) (read_file : String → GeoDataFrame)
    (to_crs : GeoDataFrame → Option GeoDataFrame) : JsonResp GeoDataFrame :=
  if fs districts_path then
    .payload (load_shapefile_as_geojson to_crs (read_file districts_path))
  else .errorObj ("No se encontró " ++ districts_path)

def get_region (fs : String → Bool) (read_file : String → GeoDataFrame)
    (to_crs : GeoDataFrame → Option GeoDataFrame) : JsonResp GeoDataFrame :=
  if fs region_path then
    .payload (load_shapefile_as_geojson to_crs (read_file region_path))
  else .errorObj ("No se encontró " ++ region_path)

def get_roads (fs : String → Bool) (read_file : String → GeoDataFrame)
    (to_crs : GeoDataFrame → Option GeoDataFrame) : JsonResp GeoDataFrame :=
  if fs roads_path then
    .payload (load_shapefile_as_geojson to_crs (read_file roads_path))
  else .errorObj ("No se encontró " ++ roads_path)

def get_streams (fs : String → Bool) (read_file : String → GeoDataFrame)
    (to_crs : GeoDataFrame → Option GeoDataFrame) : JsonResp GeoDataFrame :=
  if fs water_path then
    .payload (load_shapefile_as_geojson to_crs (read_file water_path))
  else .errorObj ("No se encontró " ++ water_path)

def get_landcover (fs : String → Bool)
    (read_raster : String → NpArray2D × RasterProfile) (q : Option Int) :
    JsonResp TransferPayload :=
  let tif_path := landcover_path (resolveYear q)
  if fs tif_path then
    .payload (load_raster_as_base64 (read_raster tif_path).1
      (read_raster tif_path).2)
  else .errorObj ("No se encontró " ++ tif_path)

def get_gpp (fs : String → Bool)
    (read_raster : String → NpArray2D × RasterProfile) (q : Option Int) :
    JsonResp TransferPayload :=
  let tif_path := gpp_path (resolveYear q)
  if fs tif_path then
    .payload (load_raster_as_base64 (read_raster tif_path).1
      (read_raster tif_path).2)
  else .errorObj ("No se encontró " ++ tif_path)

def get_precip (fs : String → Bool)
    (read_raster : String → NpArray2D × RasterProfile) (q : Option Int) :
    JsonResp TransferPayload :=
  let tif_path := precip_path (resolveYear q)
  if fs tif_path then
    .payload (load_raster_as_base64 (read_raster tif_path).1
      (read_raster tif_path).2)
  else .errorObj ("No se encontró " ++ tif_path)

def get_population (fs : String → Bool)
    (read_raster : String → NpArray2D × RasterProfile) (q : Option Int) :
    JsonResp TransferPayload :=
  let tif_path := pop_path (resolveYear q)
  if fs tif_path then
    .payload (load_raster_as_base64 (read_raster tif_path).1
      (read_raster tif_path).2)
  else .errorObj ("No se encontró " ++ tif_path)

/-! ## CORS configuration (backend.py lines 28 to 34) -/

/-- The allow_origins list passed to CORSMiddleware in backend.py
line 30: the literal list holding one empty string. -/
def allow_origins : List String := [""]

/-- The allow_headers list passed to CORSMiddleware in backend.py
line 33. -/
def allow_headers : List String := ["*"]

/-- Models Starlette CORSMiddleware origin checking against the
configured allow_origins list: the request origin is accepted when the
wildcard is configured or the origin itself is listed. -/
def corsOriginAllowed (origin : String) : Bool :=
  allow_origins.contains ("*") || allow_origins.contains origin

/-! ## Dashboard plotting (frontend.py lines 75 to 102, app.py lines 58
to 99)

A cell value as seen by the plotting layer is some q for a finite value
and none for a non-finite cell (NaN or an infinity); the histogram layer
drops non-finite cells and assigns every finite cell to exactly one of
the equal-width bins over the observed value range, the last bin
closed. -/

abbrev PlotVal := Option Rat

def finiteVals (flat : List PlotVal) : List Rat := flat.filterMap id

def listMinD (l : List Rat) (d : Rat) : Rat := l.foldr min d

def listMaxD (l : List Rat) (d : Rat) : Rat := l.foldr max d

def binIndex (nb : Nat) (lo hi v : Rat) : Nat :=
  if hi ≤ lo then 0
  else min (nb - 1) (((v - lo) / ((hi - lo) / (nb : Rat))).floor).toNat

structure HistFig where
  nbins : Nat
  counts : List Nat
deriving DecidableEq

structure HeatmapFig where
  z : List (List PlotVal)
deriving DecidableEq

/-- The default value of the bins parameter of plot_raster_and_hist,
app.py line 63; frontend.py passes the same literal 50 as nbins at
line 96. -/
def bins_default : Nat := 50

/-- Models plot_raster_and_hist: a heatmap of the row-reversed array and a
histogram of the flattened values with the given bin count. -/
def plot_raster_and_hist (data : List (List PlotVal)) (bins : Nat) :
    HeatmapFig × HistFig :=
  let flat := flattenRows data
  let vals := finiteVals flat
  let lo := listMinD vals 0
  let hi := listMaxD vals 0
  (⟨data.reverse⟩,
   ⟨bins, (List.range bins).map
      (fun i => vals.countP (fun v => binIndex bins lo hi v == i))⟩)

theorem binIndex_lt (nb : Nat) (hnb : 0 < nb) (lo hi v : Rat) :
    binIndex nb lo hi v < nb := by
  unfold binIndex
  split
  · exact hnb
  · have hle : min (nb - 1) (Int.toNat ⌊(v - lo) / ((hi - lo) / (nb : Rat))⌋)
        ≤ nb - 1 := Nat.min_le_left _ _
    omega

theorem sum_map_range_eq_finset (n : Nat) (f : Nat → Nat) :
    ((List.range n).map f).sum = ∑ i in Finset.range n, f i := by
  induction n with
  | zero => rfl
  | succ m ih =>
    rw [List.range_succ, List.map_append, List.sum_append,
      Finset.sum_range_succ, ih]
    simp

theorem sum_countP_eq_length {α : Type} (nb : Nat) (f : α → Nat)
    (hf : ∀ v, f v < nb) (l : List α) :
    ((List.range nb).map (fun i => l.countP (fun v => f v == i))).sum
      = l.length := by
  rw [sum_map_range_eq_finset]
  induction l with
  | nil => simp
  | cons a t ih =>
    have hstep : ∀ i, t.countP (fun v => f v == i)
        + (if f a = i then 1 else 0)
        = (a :: t).countP (fun v => f v == i) := by
      intro i
      rw [List.countP_cons]
      by_cases h : f a = i <;> simp [h]
    calc ∑ i in Finset.range nb, (a :: t).countP (fun v => f v == i)
        = ∑ i in Finset.range nb,
            (t.countP (fun v => f v == i) + (if f a = i then 1 else 0)) := by
          refine Finset.sum_congr rfl ?_
          intro i _
          rw [hstep i]
      _ = (∑ i in Finset.range nb, t.countP (fun v => f v == i))
            + ∑ i in Finset.range nb, (if f a = i then 1 else 0) := by
          rw [Finset.sum_add_distrib]
      _ = t.length + 1 := by
          rw [ih, Finset.sum_ite_eq]
          simp [Finset.mem_range.mpr (hf a)]
      _ = (a :: t).length := by simp

/-! ## ROI Time-Series Tool (main.py)

The session ROI is the optional coordinate list stored under roi_coords;
mk_polygon is the external ee.Geometry.Polygon constructor, returning
none where it raises (that exception is caught inside get_drawn_roi). -/

inductive EEGeometry where
  | polygon (coords : List (List Rat))
  | rectangle (bounds : List Rat)
deriving DecidableEq

/-- Models get_drawn_roi in main.py lines 105 to 119. -/
def get_drawn_roi (mk_polygon : List (List Rat) → Option EEGeometry)
    (roi_coords : Option (List (List Rat))) : Option EEGeometry :=
  match roi_coords with
  | some coords => mk_polygon coords
  | none => none

structure RoiChoice where
  roi : EEGeometry
  warned : Bool
deriving DecidableEq

/-- Models main.py lines 199 to 202, the ROI substitution at the start of
an Analisis de Datos run: when get_drawn_roi yields none a warning is
shown and the hardcoded default rectangle is used. -/
def analysis_roi (mk_polygon : List (List Rat) → Option EEGeometry)
    (roi_coords : Option (List (List Rat))) : RoiChoice :=
  match get_drawn_roi mk_polygon roi_coords with
  | none => ⟨EEGeometry.rectangle [-16, 16, -14, 18], true⟩
  | some r => ⟨r, false⟩

/-- Models main.py lines 323 to 326, the identical ROI substitution in the
Comparativa de Periodos section. -/
def comparison_roi (mk_polygon : List (List Rat) → Option EEGeometry)
    (roi_coords : Option (List (List Rat))) : RoiChoice :=
  match get_drawn_roi mk_polygon roi_coords with
  | none => ⟨EEGeometry.rectangle [-16, 16, -14, 18], true⟩
  | some r => ⟨r, false⟩

/-! ## Shared lemmas about the encoder output -/

theorem tobytes_length (a : NpArray2D)
    (hlen : a.data.length = a.rows)
    (hcols : ∀ row ∈ a.data, row.length = a.cols) :
    (tobytes a).length = a.rows * a.cols * a.dtype.itemsize := by
  unfold tobytes
  rw [bytesOfVals_length, flattenRows_length a.cols _ hcols, hlen]

/-! ## Claims -/

/-- C1: for every 2-D raster array of a supported fixed-width numeric
dtype, encoding with the backend codec (row-major tobytes then base64,
backend.py lines 85 to 108) and decoding with the client codec (base64
decode, np.frombuffer with the dtype string declared in the metadata,
reshape to the declared shape, frontend.py lines 55 to 67) yields the
original array element for element.  The hypotheses state shape
wellformedness, that elements fit the dtype width, and the rasterio
guarantee that the profile names the dtype of the band. -/
theorem raster_encode_decode_roundtrip (a : NpArray2D)
    (profile : RasterProfile)
    (hlen : a.data.length = a.rows)
    (hcols : ∀ row ∈ a.data, row.length = a.cols)
    (hvals : ∀ row ∈ a.data, ∀ v ∈ row, v < 256 ^ a.dtype.itemsize)
    (hdt : profile.dtype = some a.dtype.name) :
    get_raster_decode (load_raster_as_base64 a profile) = some a.data := by
  have hkpos : 0 < a.dtype.itemsize := itemsize_pos a.dtype
  have hb64 : b64decode (load_raster_as_base64 a profile).base64_data
      = tobytes a := b64_roundtrip _ (bytesOfVals_lt _ _)
  have hdty : get_raster_dtype (load_raster_as_base64 a profile).metadata
      = a.dtype.name := by
    show profile.dtype.getD ("int16") = a.dtype.name
    rw [hdt]
    rfl
  have hflat : ∀ v ∈ flattenRows a.data, v < 256 ^ a.dtype.itemsize := by
    intro v hv
    obtain ⟨row, hrow, hvr⟩ := mem_flattenRows.mp hv
    exact hvals row hrow v hvr
  have hfrom : frombuffer a.dtype.itemsize (tobytes a) = flattenRows a.data :=
    frombuffer_bytesOfVals _ hkpos _ hflat
  have htlen : (tobytes a).length = a.rows * a.cols * a.dtype.itemsize :=
    tobytes_length a hlen hcols
  have hshape1 : (load_raster_as_base64 a profile).shape.1 = a.rows := rfl
  have hshape2 : (load_raster_as_base64 a profile).shape.2 = a.cols := rfl
  unfold get_raster_decode
  rw [hb64, hdty, parseDtype_name, Option.some_bind, hshape1, hshape2, htlen,
    if_pos (Nat.mul_mod_left _ _), hfrom]
  unfold reshape2
  rw [flattenRows_length a.cols _ hcols, hlen, if_pos rfl, ← hlen,
    chunkRows_flattenRows a.cols _ hcols]

/-- C1 witness: a concrete 2 by 2 int16 raster round trips through the
backend encoder and the client decoder. -/
theorem raster_encode_decode_roundtrip_witness :
    get_raster_decode (load_raster_as_base64
        ⟨NpDtype.int16, 2, 2, [[0, 515], [65535, 7]]⟩
        ⟨none, none, some ("int16"), none, none, none, none, none⟩)
      = some [[0, 515], [65535, 7]] :=
  raster_encode_decode_roundtrip
    ⟨NpDtype.int16, 2, 2, [[0, 515], [65535, 7]]⟩
    ⟨none, none, some ("int16"), none, none, none, none, none⟩
    (by decide) (by decide) (by decide) (by decide)

/-- C2: every Data Service endpoint whose resolved file path does not
exist returns the error-shaped JSON object (the dict with the single
error key), and the handler is a total function, so no unhandled
exception escapes. -/
theorem missing_file_returns_error_object :
    (∀ (fs : String → Bool) rf tc, fs districts_path = false →
      get_districts fs rf tc
        = .errorObj ("No se encontró " ++ districts_path)) ∧
    (∀ (fs : String → Bool) rf tc, fs region_path = false →
      get_region fs rf tc
        = .errorObj ("No se encontró " ++ region_path)) ∧
    (∀ (fs : String → Bool) rf tc, fs roads_path = false →
      get_roads fs rf tc
        = .errorObj ("No se encontró " ++ roads_path)) ∧
    (∀ (fs : String → Bool) rf tc, fs water_path = false →
      get_streams fs rf tc
        = .errorObj ("No se encontró " ++ water_path)) ∧
    (∀ (fs : String → Bool) rr q, fs (landcover_path (resolveYear q)) = false →
      get_landcover fs rr q
        = .errorObj ("No se encontró " ++ landcover_path (resolveYear q))) ∧
    (∀ (fs : String → Bool) rr q, fs (gpp_path (resolveYear q)) = false →
      get_gpp fs rr q
        = .errorObj ("No se encontró " ++ gpp_path (resolveYear q))) ∧
    (∀ (fs : String → Bool) rr q, fs (precip_path (resolveYear q)) = false →
      get_precip fs rr q
        = .errorObj ("No se encontró " ++ precip_path (resolveYear q))) ∧
    (∀ (fs : String → Bool) rr q, fs (pop_path (resolveYear q)) = false →
      get_population fs rr q
        = .errorObj ("No se encontró " ++ pop_path (resolveYear q))) := by
  refine ⟨?_, ?_, ?_, ?_, ?_, ?_, ?_, ?_⟩ <;>
    intro fs f g h <;>
    simp [get_districts, get_region, get_roads, get_streams, get_landcover,
      get_gpp, get_precip, get_population, h]

/-- C2 witness: with an empty filesystem, the districts endpoint and the
landcover endpoint with no year parameter return the error objects. -/
theorem missing_file_returns_error_object_witness :
    get_districts (fun _ => false) (fun _ => ⟨none, 0⟩) (fun _ => none)
      = .errorObj ("No se encontró " ++ districts_path) ∧
    get_landcover (fun _ => false)
      (fun _ => (⟨NpDtype.uint8, 0, 0, []⟩,
        ⟨none, none, none, none, none, none, none, none⟩)) none
      = .errorObj ("No se encontró " ++ landcover_path (resolveYear none)) :=
  ⟨missing_file_returns_error_object.1 _ _ _ rfl,
   missing_file_returns_error_object.2.2.2.2.1 _ _ none rfl⟩

/-- C3 counterexample: the claim that a layer with a declared CRS always
comes out as EPSG:4326 fails on the code at a concrete input.  When the
geopandas to_crs call raises, backend.py lines 57 to 60 catch the
exception and continue with the unprojected layer, so a layer declaring
EPSG:32628 whose reprojection fails keeps EPSG:32628. -/
theorem crs_always_4326_counterexample :
    (load_shapefile_as_geojson (fun _ => none)
        ⟨some ("EPSG:32628"), 1⟩).crs ≠ some ("EPSG:4326") := by decide

/-- C3 amended: a layer without a CRS has its CRS set to the default
EPSG:4326; a layer with a declared CRS is reprojected to EPSG:4326
whenever to_crs succeeds, and keeps its original CRS when to_crs raises
(the exception is caught and logged).  The hypothesis is the geopandas
contract that a successful to_crs yields the requested CRS. -/
theorem crs_normalization_amended
    (to_crs : GeoDataFrame → Option GeoDataFrame)
    (hsucc : ∀ g g', to_crs g = some g' → g'.crs = some ("EPSG:4326"))
    (gdf : GeoDataFrame) :
    (gdf.crs = none →
      (load_shapefile_as_geojson to_crs gdf).crs = some ("EPSG:4326")) ∧
    (∀ c, gdf.crs = some c →
      (load_shapefile_as_geojson to_crs gdf).crs = some ("EPSG:4326") ∨
      (to_crs gdf = none ∧
        (load_shapefile_as_geojson to_crs gdf).crs = some c)) := by
  constructor
  · intro h
    simp [load_shapefile_as_geojson, h]
  · intro c h
    cases hg : to_crs gdf with
    | none =>
      right
      exact ⟨rfl, by simp [load_shapefile_as_geojson, h, hg]⟩
    | some g =>
      left
      have hc := hsucc gdf g hg
      simp [load_shapefile_as_geojson, h, hg, hc]

/-- C3 amended witness: with a reprojection that succeeds and returns the
requested CRS, a layer without a CRS gets the default and a layer with a
declared CRS reaches one of the two amended outcomes. -/
theorem crs_normalization_amended_witness :
    (load_shapefile_as_geojson (fun g => some ⟨some ("EPSG:4326"), g.features⟩)
        ⟨none, 2⟩).crs = some ("EPSG:4326") ∧
    ((load_shapefile_as_geojson (fun g => some ⟨some ("EPSG:4326"), g.features⟩)
        ⟨some ("EPSG:32628"), 2⟩).crs = some ("EPSG:4326") ∨
      ((fun g => some (⟨some ("EPSG:4326"), g.features⟩ : GeoDataFrame))
          (⟨some ("EPSG:32628"), 2⟩ : GeoDataFrame) = none ∧
        (load_shapefile_as_geojson
          (fun g => some ⟨some ("EPSG:4326"), g.features⟩)
          ⟨some ("EPSG:32628"), 2⟩).crs = some ("EPSG:32628"))) :=
  ⟨(crs_normalization_amended _
      (fun g g' hgg => by injection hgg with hh; rw [← hh]) _).1 rfl,
   (crs_normalization_amended _
      (fun g g' hgg => by injection hgg with hh; rw [← hh]) _).2
      ("EPSG:32628") rfl⟩

/-- C4: a GET request to /admin/districts when the districts shapefile is
absent returns HTTP status 200 with exactly the error body containing the
message No se encontró Admin_layers/Assaba_Districts_layer.shp. -/
theorem districts_missing_returns_error_200 (fs : String → Bool)
    (rf : String → GeoDataFrame) (tc : GeoDataFrame → Option GeoDataFrame)
    (h : fs districts_path = false) :
    serve (get_districts fs rf tc)
      = ⟨200, .errorObj
          ("No se encontró Admin_layers/Assaba_Districts_layer.shp")⟩ := by
  have hb : get_districts fs rf tc
      = .errorObj ("No se encontró " ++ districts_path) := by
    simp [get_districts, h]
  rw [hb]
  decide

/-- C4 witness: the districts endpoint over an empty filesystem serves
status 200 with the exact error body. -/
theorem districts_missing_returns_error_200_witness :
    serve (get_districts (fun _ => false) (fun _ => ⟨none, 0⟩) (fun _ => none))
      = ⟨200, .errorObj
          ("No se encontró Admin_layers/Assaba_Districts_layer.shp")⟩ :=
  districts_missing_returns_error_200 _ _ _ rfl

/-- C5 (code bug in backend.py line 30): the claim says every request
origin is accepted, but the configured allow_origins list is the literal
list holding one empty string, not the wildcard, so the middleware origin
check rejects every real origin such as http://example.com and accepts
only the empty origin.  The comments in backend.py lines 26 and 30 state
the any-origin intent. -/
theorem cors_config_rejects_real_origin :
    corsOriginAllowed ("http://example.com") = false ∧
    corsOriginAllowed ("") = true ∧
    allow_origins ≠ ["*"] := by decide

/-- C6: the dashboard histogram defaults to 50 bins, and the total count
across the bins equals the number of finite cells of the array (plotly
drops non-finite values; every finite value lands in exactly one bin). -/
theorem histogram_default_bins_and_total (data : List (List PlotVal)) :
    bins_default = 50 ∧
    (plot_raster_and_hist data bins_default).2.nbins = 50 ∧
    (plot_raster_and_hist data bins_default).2.counts.sum
      = (finiteVals (flattenRows data)).length := by
  refine ⟨rfl, rfl, ?_⟩
  exact sum_countP_eq_length 50 _
    (fun v => binIndex_lt 50 (by norm_num) _ _ v) _

/-- C7: the client decoder resolves a payload whose metadata lacks a
dtype entry to the silent default int16, and uses the declared dtype
string whenever one is present (frontend.py line 63). -/
theorem client_dtype_default_int16 :
    (∀ m : RasterMeta, m.dtype = none → get_raster_dtype m = "int16") ∧
    (∀ (m : RasterMeta) (d : String), m.dtype = some d →
      get_raster_dtype m = d) := by
  constructor
  · intro m h
    simp [get_raster_dtype, h]
  · intro m d h
    simp [get_raster_dtype, h]

/-- C7 witness: concrete metadata records without and with a dtype
entry. -/
theorem client_dtype_default_int16_witness :
    get_raster_dtype ⟨"None", none, none, none, none, none, none, none⟩
      = "int16" ∧
    get_raster_dtype
      ⟨"None", none, some ("float32"), none, none, none, none, none⟩
      = "float32" :=
  ⟨client_dtype_default_int16.1 _ rfl, client_dtype_default_int16.2 _ _ rfl⟩

/-- C8: every payload produced by the raster encoder satisfies the
transfer invariant: the metadata carries the dtype of the band, the
base64-decoded byte length equals rows times columns times the itemsize
of the declared dtype, and the declared shape is the source array
shape. -/
theorem transfer_payload_invariant (a : NpArray2D) (profile : RasterProfile)
    (hlen : a.data.length = a.rows)
    (hcols : ∀ row ∈ a.data, row.length = a.cols)
    (hdt : profile.dtype = some a.dtype.name) :
    (load_raster_as_base64 a profile).metadata.dtype = some a.dtype.name ∧
    (b64decode (load_raster_as_base64 a profile).base64_data).length
      = (load_raster_as_base64 a profile).shape.1
        * (load_raster_as_base64 a profile).shape.2
        * itemsizeOfName a.dtype.name ∧
    (load_raster_as_base64 a profile).shape = (a.rows, a.cols) := by
  refine ⟨hdt, ?_, rfl⟩
  have hb64 : b64decode (load_raster_as_base64 a profile).base64_data
      = tobytes a := b64_roundtrip _ (bytesOfVals_lt _ _)
  rw [hb64, tobytes_length a hlen hcols, itemsizeOfName_name]
  rfl

/-- C8 witness: the invariant at a concrete 1 by 3 uint8 raster. -/
theorem transfer_payload_invariant_witness :
    (load_raster_as_base64 ⟨NpDtype.uint8, 1, 3, [[5, 0, 255]]⟩
        ⟨none, none, some ("uint8"), none, none, none, none, none⟩).metadata.dtype
      = some (NpDtype.uint8.name) ∧
    (b64decode (load_raster_as_base64 ⟨NpDtype.uint8, 1, 3, [[5, 0, 255]]⟩
        ⟨none, none, some ("uint8"), none, none, none, none, none⟩).base64_data).length
      = (load_raster_as_base64 ⟨NpDtype.uint8, 1, 3, [[5, 0, 255]]⟩
          ⟨none, none, some ("uint8"), none, none, none, none, none⟩).shape.1
        * (load_raster_as_base64 ⟨NpDtype.uint8, 1, 3, [[5, 0, 255]]⟩
            ⟨none, none, some ("uint8"), none, none, none, none, none⟩).shape.2
        * itemsizeOfName (NpDtype.uint8.name) ∧
    (load_raster_as_base64 ⟨NpDtype.uint8, 1, 3, [[5, 0, 255]]⟩
        ⟨none, none, some ("uint8"), none, none, none, none, none⟩).shape
      = (1, 3) :=
  transfer_payload_invariant ⟨NpDtype.uint8, 1, 3, [[5, 0, 255]]⟩
    ⟨none, none, some ("uint8"), none, none, none, none, none⟩
    (by decide) (by decide) (by decide)

/-- C9: when the session holds no ROI coordinates, both the Analisis de
Datos run and the Comparativa de Periodos run substitute the hardcoded
default rectangle with bounds [-16, 16, -14, 18] and emit the warning;
the substitution is a total function, so the run proceeds without
crashing. -/
theorem roi_fallback_default_rectangle
    (mk_polygon : List (List Rat) → Option EEGeometry) :
    analysis_roi mk_polygon none
      = ⟨EEGeometry.rectangle [-16, 16, -14, 18], true⟩ ∧
    comparison_roi mk_polygon none
      = ⟨EEGeometry.rectangle [-16, 16, -14, 18], true⟩ :=
  ⟨rfl, rfl⟩

/-- C10: each raster endpoint treats an absent year query parameter as
year 2010: the resolved file path and the whole response coincide with
the explicit year 2010 request. -/
theorem raster_year_defaults_to_2010 (fs : String → Bool)
    (read_raster : String → NpArray2D × RasterProfile) :
    landcover_path (resolveYear none)
      = landcover_path (resolveYear (some 2010)) ∧
    gpp_path (resolveYear none) = gpp_path (resolveYear (some 2010)) ∧
    precip_path (resolveYear none) = precip_path (resolveYear (some 2010)) ∧
    pop_path (resolveYear none) = pop_path (resolveYear (some 2010)) ∧
    get_landcover fs read_raster none
      = get_landcover fs read_raster (some 2010) ∧
    get_gpp fs read_raster none = get_gpp fs read_raster (some 2010) ∧
    get_precip fs read_raster none = get_precip fs read_raster (some 2010) ∧
    get_population fs read_raster none
      = get_population fs read_raster (some 2010) :=
  ⟨rfl, rfl, rfl, rfl, rfl, rfl, rfl, rfl⟩

end Mapita
